import Mathlib

/-!
Verification of the two representative lint rules of the statix core
(`src/lib/src/lints/manual_inherit.rs` and
`src/lib/src/lints/manual_inherit_from.rs`) against the repository's
specification.

The rules run over a lossless rowan/rnix syntax tree.  We embed the slice
of that tree interface that the two rules consume: elements are nodes or
tokens, a node carries a kind, a text range, its source text and its
ordered child nodes (rowan's `children()` yields only nodes, never
tokens).  The typed rnix accessors (`AttrpathValue`, `Ident`, `Select`,
`Attrpath`) are kind-guarded casts plus child searches, mirroring the
generated rnix AST accessors the rules call.
-/

/-- Half-open byte range into the original source, as rowan's TextRange. -/
structure TextRange where
  start : Nat
  stop : Nat
deriving DecidableEq

/-- The node-kind tags relevant to the two rules; every other grammar
production is `other`, tagged with whether it is an expression production
(whether rnix `Expr::cast` succeeds on it). -/
inductive SyntaxKind where
  | NODE_ATTRPATH_VALUE
  | NODE_ATTRPATH
  | NODE_IDENT
  | NODE_SELECT
  | NODE_INHERIT
  | other (code : Nat) (isExprKind : Bool)
deriving DecidableEq

/-- A syntax node: kind, text range, source text, ordered child nodes. -/
inductive SyntaxNode where
  | mk (kind : SyntaxKind) (range : TextRange) (text : String)
       (children : List SyntaxNode)

def SyntaxNode.kind : SyntaxNode → SyntaxKind
  | .mk k _ _ _ => k

def SyntaxNode.range : SyntaxNode → TextRange
  | .mk _ r _ _ => r

def SyntaxNode.text : SyntaxNode → String
  | .mk _ _ t _ => t

def SyntaxNode.children : SyntaxNode → List SyntaxNode
  | .mk _ _ _ c => c

/-- A leaf token of the lossless tree. -/
structure SyntaxToken where
  kind : SyntaxKind
  range : TextRange
  text : String

/-- rowan's `SyntaxElement = NodeOrToken<SyntaxNode, SyntaxToken>`. -/
inductive SyntaxElement where
  | node (n : SyntaxNode)
  | token (t : SyntaxToken)

def SyntaxElement.text_range : SyntaxElement → TextRange
  | .node n => n.range
  | .token t => t.range

/-- Whether rnix `Expr::cast` succeeds on a node of this kind.  Idents and
selects are expression productions; attrpaths, attrpath-values and inherit
statements are not. -/
def Expr.can_cast : SyntaxKind → Bool
  | .NODE_IDENT => true
  | .NODE_SELECT => true
  | .other _ isExprKind => isExprKind
  | _ => false

/-- rnix `Ident::cast`: succeeds exactly on `NODE_IDENT` nodes. -/
def Ident.cast (n : SyntaxNode) : Option SyntaxNode :=
  if n.kind = SyntaxKind.NODE_IDENT then some n else none

/-- rnix `AttrpathValue::cast`: succeeds exactly on `NODE_ATTRPATH_VALUE`. -/
def AttrpathValue.cast (n : SyntaxNode) : Option SyntaxNode :=
  if n.kind = SyntaxKind.NODE_ATTRPATH_VALUE then some n else none

/-- rnix `Select::cast`: succeeds exactly on `NODE_SELECT`. -/
def Select.cast (n : SyntaxNode) : Option SyntaxNode :=
  if n.kind = SyntaxKind.NODE_SELECT then some n else none

/-- rnix `AttrpathValue::attrpath()`: the first child node of kind
`NODE_ATTRPATH`. -/
def AttrpathValue.attrpath (n : SyntaxNode) : Option SyntaxNode :=
  n.children.find? (fun c => decide (c.kind = SyntaxKind.NODE_ATTRPATH))

/-- rnix `AttrpathValue::value()`: the first child node that is an
expression production. -/
def AttrpathValue.value (n : SyntaxNode) : Option SyntaxNode :=
  n.children.find? (fun c => Expr.can_cast c.kind)

/-- rnix `Attrpath::attrs()`: the ordered path segments.  In the grammar
every node child of an attrpath is an attr segment (the dots are tokens
and do not appear among node children). -/
def Attrpath.attrs (n : SyntaxNode) : List SyntaxNode :=
  n.children

/-- rnix `Select::attrpath()`: the attrpath child of a select node. -/
def Select.attrpath (n : SyntaxNode) : Option SyntaxNode :=
  n.children.find? (fun c => decide (c.kind = SyntaxKind.NODE_ATTRPATH))

/-- rnix `Select::expr()`: the base expression of a select node — the
sub-expression preceding the first dot, i.e. the first child that is an
expression production. -/
def Select.expr (n : SyntaxNode) : Option SyntaxNode :=
  n.children.find? (fun c => Expr.can_cast c.kind)

/-- Modelled from the spec: `SessionInfo` (defined in `session.rs`, not
among the provided sources) is a read-only bag of pass-wide facts such as
dialect/version toggles; the two rules receive it and never read it. -/
structure SessionInfo where
  nix_version : String

/-- Modelled from the spec: a `Suggestion` (defined in `lib.rs`, not among
the provided sources) is a proposed fix: the text range to replace and a
replacement expressed as a syntax subtree. -/
structure Suggestion where
  at_ : TextRange
  fix : SyntaxNode

def Suggestion.new (at_ : TextRange) (fix : SyntaxNode) : Suggestion :=
  Suggestion.mk at_ fix

/-- Modelled from the spec: a `Report` (defined in `lib.rs`, not among the
provided sources) is one diagnostic: rule identity (note and stable
numeric code), the triggering source range, a human-readable message, and
zero-or-one suggestion. -/
structure Report where
  note : String
  code : Nat
  at_ : TextRange
  message : String
  suggestion : Option Suggestion

/-- Modelled from the spec: the rule-identity half of a report, as
produced by `self.report()` before the diagnostic is attached. -/
structure ReportBuilder where
  note : String
  code : Nat

/-- Modelled from the spec: `Report::suggest` attaches the triggering
range, the message and the suggestion to the rule identity. -/
def ReportBuilder.suggest (r : ReportBuilder) (at_ : TextRange)
    (message : String) (s : Suggestion) : Report :=
  Report.mk r.note r.code at_ message (some s)

/-- Rendered names of a list of identifier nodes, separated by spaces. -/
def joinNames : List SyntaxNode → String
  | [] => ""
  | [k] => k.text
  | k :: rest => k.text ++ " " ++ joinNames rest

/-- Modelled from the spec: the tree-builder `make::inherit_stmt` (in
`make.rs`, not among the provided sources) synthesizes an inherit
statement node rendering as `inherit <names>;` from identifier nodes. -/
def make.inherit_stmt (keys : List SyntaxNode) : SyntaxNode :=
  let body := "inherit " ++ joinNames keys ++ ";"
  SyntaxNode.mk SyntaxKind.NODE_INHERIT (TextRange.mk 0 body.length) body []

/-- Modelled from the spec: the tree-builder `make::inherit_from_stmt`
synthesizes an inherit-from statement node rendering as
`inherit (<base>) <names>;` from a base expression and identifier nodes. -/
def make.inherit_from_stmt (set_ : SyntaxNode) (keys : List SyntaxNode) :
    SyntaxNode :=
  let body := "inherit (" ++ set_.text ++ ") " ++ joinNames keys ++ ";"
  SyntaxNode.mk SyntaxKind.NODE_INHERIT (TextRange.mk 0 body.length) body []

/-- The diagnostic message both rules attach to their reports. -/
def inherit_message : String :=
  "This assignment is better written with `inherit`"

/-- Lint metadata of rule A (`#[lint(...)]` on `manual_inherit`). -/
def manual_inherit.note : String := "Assignment instead of inherit"

def manual_inherit.code : Nat := 3

def manual_inherit.match_with : SyntaxKind := SyntaxKind.NODE_ATTRPATH_VALUE

def manual_inherit.report : ReportBuilder :=
  ReportBuilder.mk manual_inherit.note manual_inherit.code

/-- Rule A, `ManualInherit::validate` from
`src/lib/src/lints/manual_inherit.rs`: the guarded matching chain for a
binding `key = value;` whose key path is a single identifier, whose value
is a bare identifier, and whose two texts coincide. -/
def manual_inherit.validate (node : SyntaxElement) (_sess : SessionInfo) :
    Option Report :=
  match node with
  | SyntaxElement.token _ => none
  | SyntaxElement.node node =>
    match AttrpathValue.cast node with
    | none => none
    | some key_value_stmt =>
      match AttrpathValue.attrpath key_value_stmt with
      | none => none
      | some key_path =>
        match Attrpath.attrs key_path with
        | [] => none
        | key_node :: key_path_rest =>
          match key_path_rest with
          | _ :: _ => none
          | [] =>
            match Ident.cast key_node with
            | none => none
            | some key =>
              match AttrpathValue.value key_value_stmt with
              | none => none
              | some value_node =>
                match Ident.cast value_node with
                | none => none
                | some value =>
                  if key.text = value.text then
                    let at_ := node.range
                    let replacement := make.inherit_stmt [key]
                    let message := inherit_message
                    some ((manual_inherit.report).suggest at_ message
                      (Suggestion.new at_ replacement))
                  else none

/-- Lint metadata of rule B (`#[lint(...)]` on the `manual_inherit_from`
module's `ManualInherit`). -/
def manual_inherit_from.note : String := "Assignment instead of inherit from"

def manual_inherit_from.code : Nat := 4

def manual_inherit_from.match_with : SyntaxKind :=
  SyntaxKind.NODE_ATTRPATH_VALUE

def manual_inherit_from.report : ReportBuilder :=
  ReportBuilder.mk manual_inherit_from.note manual_inherit_from.code

/-- Rule B, `ManualInherit::validate` from
`src/lib/src/lints/manual_inherit_from.rs`: the guarded matching chain for
a binding `key = value;` whose key path is a single identifier, whose
value is a select whose first selected segment's text equals the key's
text; the fix is built from the select's base expression (`value.expr()?`
inside the success branch, so a select without a base degenerates to no
match). -/
def manual_inherit_from.validate (node : SyntaxElement)
    (_sess : SessionInfo) : Option Report :=
  match node with
  | SyntaxElement.token _ => none
  | SyntaxElement.node node =>
    match AttrpathValue.cast node with
    | none => none
    | some key_value_stmt =>
      match AttrpathValue.attrpath key_value_stmt with
      | none => none
      | some key_path =>
        match Attrpath.attrs key_path with
        | [] => none
        | key_node :: key_path_rest =>
          match key_path_rest with
          | _ :: _ => none
          | [] =>
            match Ident.cast key_node with
            | none => none
            | some key =>
              match AttrpathValue.value key_value_stmt with
              | none => none
              | some value_node =>
                match Select.cast value_node with
                | none => none
                | some value =>
                  match (Select.attrpath value).bind
                      (fun attrs_node => (Attrpath.attrs attrs_node).head?)
                    with
                  | none => none
                  | some index_node =>
                    match Ident.cast index_node with
                    | none => none
                    | some index =>
                      if key.text = index.text then
                        match Select.expr value with
                        | none => none
                        | some set_ =>
                          let at_ := node.range
                          let replacement :=
                            make.inherit_from_stmt set_ [key]
                          let message := inherit_message
                          some ((manual_inherit_from.report).suggest at_
                            message (Suggestion.new at_ replacement))
                      else none

/-! ### Spec-side characterizations and concrete inputs -/

/-- The single path segment of a binding's key path, when the key path
exists and has exactly one segment. -/
def bindingKey (n : SyntaxNode) : Option SyntaxNode :=
  match AttrpathValue.attrpath n with
  | none => none
  | some kp =>
    match Attrpath.attrs kp with
    | [k] => some k
    | _ => none

/-- The first selected segment of a select node's attrpath. -/
def firstSelectedSegment (v : SyntaxNode) : Option SyntaxNode :=
  (Select.attrpath v).bind
    (fun attrs_node => (Attrpath.attrs attrs_node).head?)

/-- The spec's matching condition for rule A: an attrpath-value node whose
key path is a single identifier segment, whose value is a bare identifier,
with equal texts. -/
def ruleACond (n : SyntaxNode) : Bool :=
  decide (n.kind = SyntaxKind.NODE_ATTRPATH_VALUE) &&
    match bindingKey n with
    | none => false
    | some key =>
      decide (key.kind = SyntaxKind.NODE_IDENT) &&
        match AttrpathValue.value n with
        | none => false
        | some v =>
          decide (v.kind = SyntaxKind.NODE_IDENT) &&
            decide (key.text = v.text)

/-- The spec's matching condition for rule B: an attrpath-value node whose
key path is a single identifier segment, whose value is a select whose
first selected segment is an identifier with the key's text, and whose
base expression exists. -/
def ruleBCond (n : SyntaxNode) : Bool :=
  decide (n.kind = SyntaxKind.NODE_ATTRPATH_VALUE) &&
    match bindingKey n with
    | none => false
    | some key =>
      decide (key.kind = SyntaxKind.NODE_IDENT) &&
        match AttrpathValue.value n with
        | none => false
        | some v =>
          decide (v.kind = SyntaxKind.NODE_SELECT) &&
            (match firstSelectedSegment v with
             | none => false
             | some seg =>
               decide (seg.kind = SyntaxKind.NODE_IDENT) &&
                 decide (key.text = seg.text)) &&
            (Select.expr v).isSome

/-- The report rule A emits for a match at range `at_` with key `key`. -/
def ruleAReport (at_ : TextRange) (key : SyntaxNode) : Report :=
  (manual_inherit.report).suggest at_ inherit_message
    (Suggestion.new at_ (make.inherit_stmt [key]))

/-- The report rule B emits for a match at range `at_` with base `set_`
and key `key`. -/
def ruleBReport (at_ : TextRange) (set_ key : SyntaxNode) : Report :=
  (manual_inherit_from.report).suggest at_ inherit_message
    (Suggestion.new at_ (make.inherit_from_stmt set_ [key]))

/-- Builder for an attrpath node with the given segments. -/
def mkAttrpath (r : TextRange) (t : String) (segs : List SyntaxNode) :
    SyntaxNode :=
  SyntaxNode.mk SyntaxKind.NODE_ATTRPATH r t segs

/-- Builder for a select node `base.path`. -/
def mkSelect (r : TextRange) (t : String) (base path : SyntaxNode) :
    SyntaxNode :=
  SyntaxNode.mk SyntaxKind.NODE_SELECT r t [base, path]

/-- Builder for an attrpath-value binding node `keyPath = value;`. -/
def mkBinding (r : TextRange) (t : String) (kp v : SyntaxNode) :
    SyntaxNode :=
  SyntaxNode.mk SyntaxKind.NODE_ATTRPATH_VALUE r t [kp, v]

/-- Builder for an identifier node. -/
def mkIdent (r : TextRange) (t : String) : SyntaxNode :=
  SyntaxNode.mk SyntaxKind.NODE_IDENT r t []

/-- A concrete session for the concrete scenarios. -/
def sess0 : SessionInfo := SessionInfo.mk "2.4"

/-- A concrete leaf token (an `=` operator token). -/
def token_eq : SyntaxToken :=
  SyntaxToken.mk (SyntaxKind.other 100 false) (TextRange.mk 2 3) "="

/-- The binding `a = a;`: key ident. -/
def ident_a_key : SyntaxNode := mkIdent (TextRange.mk 0 1) "a"

/-- The binding `a = a;`: value ident. -/
def ident_a_val : SyntaxNode := mkIdent (TextRange.mk 4 5) "a"

/-- The binding `a = a;`: key path. -/
def attrpath_a : SyntaxNode := mkAttrpath (TextRange.mk 0 1) "a" [ident_a_key]

/-- The binding `a = a;` (spec scenario 1, rule A positive). -/
def binding_a_a : SyntaxNode :=
  mkBinding (TextRange.mk 0 6) "a = a;" attrpath_a ident_a_val

/-- The binding `b = c;` (spec scenario 2, both rules negative). -/
def binding_b_c : SyntaxNode :=
  mkBinding (TextRange.mk 0 6) "b = c;"
    (mkAttrpath (TextRange.mk 0 1) "b" [mkIdent (TextRange.mk 0 1) "b"])
    (mkIdent (TextRange.mk 4 5) "c")

/-- The binding `b = a.b;`: key ident. -/
def ident_b_key : SyntaxNode := mkIdent (TextRange.mk 0 1) "b"

/-- The binding `b = a.b;`: base ident of the select. -/
def ident_b_base : SyntaxNode := mkIdent (TextRange.mk 4 5) "a"

/-- The binding `b = a.b;`: selected segment. -/
def ident_b_seg : SyntaxNode := mkIdent (TextRange.mk 6 7) "b"

/-- The binding `b = a.b;`: value select node. -/
def select_a_b : SyntaxNode :=
  mkSelect (TextRange.mk 4 7) "a.b" ident_b_base
    (mkAttrpath (TextRange.mk 6 7) "b" [ident_b_seg])

/-- The binding `b = a.b;` (rule B positive: key equals first selected
segment). -/
def binding_b_ab : SyntaxNode :=
  mkBinding (TextRange.mk 0 8) "b = a.b;"
    (mkAttrpath (TextRange.mk 0 1) "b" [ident_b_key]) select_a_b

/-- The binding `pkgs = pkgs.haskellPackages;`: key ident. -/
def ident_pkgs_key : SyntaxNode := mkIdent (TextRange.mk 0 4) "pkgs"

/-- The binding `pkgs = pkgs.haskellPackages;`: base ident. -/
def ident_pkgs_base : SyntaxNode := mkIdent (TextRange.mk 7 11) "pkgs"

/-- The binding `pkgs = pkgs.haskellPackages;`: selected segment. -/
def ident_hp_val : SyntaxNode := mkIdent (TextRange.mk 12 27) "haskellPackages"

/-- The binding `pkgs = pkgs.haskellPackages;`: value select node. -/
def select_pkgs_hp : SyntaxNode :=
  mkSelect (TextRange.mk 7 27) "pkgs.haskellPackages" ident_pkgs_base
    (mkAttrpath (TextRange.mk 12 27) "haskellPackages" [ident_hp_val])

/-- The binding `pkgs = pkgs.haskellPackages;` (the claim's alleged rule B
positive example). -/
def binding_pkgs : SyntaxNode :=
  mkBinding (TextRange.mk 0 28) "pkgs = pkgs.haskellPackages;"
    (mkAttrpath (TextRange.mk 0 4) "pkgs" [ident_pkgs_key]) select_pkgs_hp

/-- The binding `mtl = pkgs.haskellPackages.mtl;`: key ident. -/
def ident_mtl_key : SyntaxNode := mkIdent (TextRange.mk 0 3) "mtl"

/-- The binding `mtl = pkgs.haskellPackages.mtl;`: first selected
segment. -/
def ident_hp_seg : SyntaxNode := mkIdent (TextRange.mk 11 26) "haskellPackages"

/-- The binding `mtl = pkgs.haskellPackages.mtl;`: value select node. -/
def select_pkgs_hp_mtl : SyntaxNode :=
  mkSelect (TextRange.mk 6 30) "pkgs.haskellPackages.mtl"
    (mkIdent (TextRange.mk 6 10) "pkgs")
    (mkAttrpath (TextRange.mk 11 30) "haskellPackages.mtl"
      [ident_hp_seg, mkIdent (TextRange.mk 27 30) "mtl"])

/-- The binding `mtl = pkgs.haskellPackages.mtl;` (spec scenario 3). -/
def binding_mtl : SyntaxNode :=
  mkBinding (TextRange.mk 0 31) "mtl = pkgs.haskellPackages.mtl;"
    (mkAttrpath (TextRange.mk 0 3) "mtl" [ident_mtl_key]) select_pkgs_hp_mtl

/-- The binding `a.b = a.b;`: first key segment. -/
def ident_ab_a : SyntaxNode := mkIdent (TextRange.mk 0 1) "a"

/-- The binding `a.b = a.b;`: second key segment. -/
def ident_ab_b : SyntaxNode := mkIdent (TextRange.mk 2 3) "b"

/-- The binding `a.b = a.b;`: two-segment key path. -/
def attrpath_ab : SyntaxNode :=
  mkAttrpath (TextRange.mk 0 3) "a.b" [ident_ab_a, ident_ab_b]

/-- The binding `a.b = a.b;` (spec scenario 4, both rules negative). -/
def binding_ab_ab : SyntaxNode :=
  mkBinding (TextRange.mk 0 10) "a.b = a.b;" attrpath_ab
    (mkSelect (TextRange.mk 6 9) "a.b" (mkIdent (TextRange.mk 6 7) "a")
      (mkAttrpath (TextRange.mk 8 9) "b" [mkIdent (TextRange.mk 8 9) "b"]))

/-- A malformed select node with a selection path but no base
expression. -/
def select_noBase : SyntaxNode :=
  SyntaxNode.mk SyntaxKind.NODE_SELECT (TextRange.mk 4 6) ".x"
    [mkAttrpath (TextRange.mk 5 6) "x" [mkIdent (TextRange.mk 5 6) "x"]]

/-- A binding `x = .x;` whose value select has no base: rule B's trigger
condition holds but the fix's base cannot be obtained. -/
def binding_noBase : SyntaxNode :=
  mkBinding (TextRange.mk 0 7) "x = .x;"
    (mkAttrpath (TextRange.mk 0 1) "x" [mkIdent (TextRange.mk 0 1) "x"])
    select_noBase

/-- A malformed binding `x =;` with a key path but no value child. -/
def binding_noValue : SyntaxNode :=
  SyntaxNode.mk SyntaxKind.NODE_ATTRPATH_VALUE (TextRange.mk 0 4) "x =;"
    [mkAttrpath (TextRange.mk 0 1) "x" [mkIdent (TextRange.mk 0 1) "x"]]

/-- Rule A returns no report on leaf tokens. -/
theorem validateA_token (t : SyntaxToken) (sess : SessionInfo) :
    manual_inherit.validate (SyntaxElement.token t) sess = none := rfl

/-- Rule B returns no report on leaf tokens. -/
theorem validateB_token (t : SyntaxToken) (sess : SessionInfo) :
    manual_inherit_from.validate (SyntaxElement.token t) sess = none := rfl

/-- Rule A returns no report on nodes that are not attrpath-value
bindings. -/
theorem validateA_not_apv (n : SyntaxNode) (sess : SessionInfo)
    (h : n.kind ≠ SyntaxKind.NODE_ATTRPATH_VALUE) :
    manual_inherit.validate (SyntaxElement.node n) sess = none := by
  simp [manual_inherit.validate, AttrpathValue.cast, h]

/-- Rule B returns no report on nodes that are not attrpath-value
bindings. -/
theorem validateB_not_apv (n : SyntaxNode) (sess : SessionInfo)
    (h : n.kind ≠ SyntaxKind.NODE_ATTRPATH_VALUE) :
    manual_inherit_from.validate (SyntaxElement.node n) sess = none := by
  simp [manual_inherit_from.validate, AttrpathValue.cast, h]

/-- Unfolding `bindingKey n = some k` into its attrpath and segment
components. -/
theorem bindingKey_eq_some {n k : SyntaxNode} (h : bindingKey n = some k) :
    ∃ kp, AttrpathValue.attrpath n = some kp ∧ Attrpath.attrs kp = [k] := by
  unfold bindingKey at h
  cases hap : AttrpathValue.attrpath n with
  | none => simp [hap] at h
  | some kp =>
    simp only [hap] at h
    refine ⟨kp, rfl, ?_⟩
    cases hat : Attrpath.attrs kp with
    | nil => simp [hat] at h
    | cons a rest =>
      cases rest with
      | nil =>
        simp only [hat] at h
        simp at h
        simp [hat, h]
      | cons b l => simp [hat] at h

/-- Master case analysis for rule A: either the spec condition holds and
`validate` returns exactly the expected report, or it fails and
`validate` returns `none`. -/
theorem validateA_cases (n : SyntaxNode) (sess : SessionInfo) :
    (ruleACond n = true ∧ ∃ key, bindingKey n = some key ∧
       manual_inherit.validate (SyntaxElement.node n) sess =
         some (ruleAReport n.range key)) ∨
    (ruleACond n = false ∧
       manual_inherit.validate (SyntaxElement.node n) sess = none) := by
  by_cases hk : n.kind = SyntaxKind.NODE_ATTRPATH_VALUE
  · cases hap : AttrpathValue.attrpath n with
    | none =>
      refine Or.inr ⟨?_, ?_⟩
      · simp [ruleACond, bindingKey, hap]
      · simp [manual_inherit.validate, AttrpathValue.cast, hk, hap]
    | some kp =>
      cases hat : Attrpath.attrs kp with
      | nil =>
        refine Or.inr ⟨?_, ?_⟩
        · simp [ruleACond, bindingKey, hap, hat]
        · simp [manual_inherit.validate, AttrpathValue.cast, hk, hap, hat]
      | cons key_node key_rest =>
        cases key_rest with
        | cons b l =>
          refine Or.inr ⟨?_, ?_⟩
          · simp [ruleACond, bindingKey, hap, hat]
          · simp [manual_inherit.validate, AttrpathValue.cast, hk, hap, hat]
        | nil =>
          by_cases hki : key_node.kind = SyntaxKind.NODE_IDENT
          · cases hv : AttrpathValue.value n with
            | none =>
              refine Or.inr ⟨?_, ?_⟩
              · simp [ruleACond, bindingKey, hap, hat, hv]
              · simp [manual_inherit.validate, AttrpathValue.cast,
                      Ident.cast, hk, hap, hat, hki, hv]
            | some v =>
              by_cases hvi : v.kind = SyntaxKind.NODE_IDENT
              · by_cases ht : key_node.text = v.text
                · refine Or.inl ⟨?_, key_node, ?_, ?_⟩
                  · simp [ruleACond, bindingKey, hk, hap, hat, hki, hv,
                          hvi, ht]
                  · simp [bindingKey, hap, hat]
                  · simp [manual_inherit.validate, AttrpathValue.cast,
                          Ident.cast, ruleAReport, hk, hap, hat, hki, hv,
                          hvi, ht]
                · refine Or.inr ⟨?_, ?_⟩
                  · simp [ruleACond, bindingKey, hap, hat, hki, hv, hvi, ht]
                  · simp [manual_inherit.validate, AttrpathValue.cast,
                          Ident.cast, hk, hap, hat, hki, hv, hvi, ht]
              · refine Or.inr ⟨?_, ?_⟩
                · simp [ruleACond, bindingKey, hap, hat, hki, hv, hvi]
                · simp [manual_inherit.validate, AttrpathValue.cast,
                        Ident.cast, hk, hap, hat, hki, hv, hvi]
          · refine Or.inr ⟨?_, ?_⟩
            · simp [ruleACond, bindingKey, hap, hat, hki]
            · simp [manual_inherit.validate, AttrpathValue.cast,
                    Ident.cast, hk, hap, hat, hki]
  · refine Or.inr ⟨?_, ?_⟩
    · simp [ruleACond, hk]
    · simp [manual_inherit.validate, AttrpathValue.cast, hk]

/-- Master case analysis for rule B: either the spec condition holds and
`validate` returns exactly the expected report built from the select's
base, or it fails and `validate` returns `none`. -/
theorem validateB_cases (n : SyntaxNode) (sess : SessionInfo) :
    (ruleBCond n = true ∧ ∃ key v set_, bindingKey n = some key ∧
       AttrpathValue.value n = some v ∧ Select.expr v = some set_ ∧
       manual_inherit_from.validate (SyntaxElement.node n) sess =
         some (ruleBReport n.range set_ key)) ∨
    (ruleBCond n = false ∧
       manual_inherit_from.validate (SyntaxElement.node n) sess = none) := by
  by_cases hk : n.kind = SyntaxKind.NODE_ATTRPATH_VALUE
  · cases hap : AttrpathValue.attrpath n with
    | none =>
      refine Or.inr ⟨?_, ?_⟩
      · simp [ruleBCond, bindingKey, hap]
      · simp [manual_inherit_from.validate, AttrpathValue.cast, hk, hap]
    | some kp =>
      cases hat : Attrpath.attrs kp with
      | nil =>
        refine Or.inr ⟨?_, ?_⟩
        · simp [ruleBCond, bindingKey, hap, hat]
        · simp [manual_inherit_from.validate, AttrpathValue.cast, hk, hap,
                hat]
      | cons key_node key_rest =>
        cases key_rest with
        | cons b l =>
          refine Or.inr ⟨?_, ?_⟩
          · simp [ruleBCond, bindingKey, hap, hat]
          · simp [manual_inherit_from.validate, AttrpathValue.cast, hk,
                  hap, hat]
        | nil =>
          by_cases hki : key_node.kind = SyntaxKind.NODE_IDENT
          · cases hv : AttrpathValue.value n with
            | none =>
              refine Or.inr ⟨?_, ?_⟩
              · simp [ruleBCond, bindingKey, hap, hat, hv]
              · simp [manual_inherit_from.validate, AttrpathValue.cast,
                      Ident.cast, hk, hap, hat, hki, hv]
            | some v =>
              by_cases hvs : v.kind = SyntaxKind.NODE_SELECT
              · cases hseg : (Select.attrpath v).bind
                    (fun attrs_node => (Attrpath.attrs attrs_node).head?)
                  with
                | none =>
                  refine Or.inr ⟨?_, ?_⟩
                  · simp [ruleBCond, bindingKey, firstSelectedSegment,
                          hap, hat, hv, hseg]
                  · simp [manual_inherit_from.validate, AttrpathValue.cast,
                          Ident.cast, Select.cast, hk, hap, hat, hki, hv,
                          hvs, hseg]
                | some seg =>
                  by_cases hsi : seg.kind = SyntaxKind.NODE_IDENT
                  · by_cases ht : key_node.text = seg.text
                    · cases hex : Select.expr v with
                      | none =>
                        refine Or.inr ⟨?_, ?_⟩
                        · simp [ruleBCond, bindingKey, firstSelectedSegment,
                                hap, hat, hv, hseg, hex]
                        · simp [manual_inherit_from.validate,
                                AttrpathValue.cast, Ident.cast, Select.cast,
                                hk, hap, hat, hki, hv, hvs, hseg, hsi, ht,
                                hex]
                      | some set_ =>
                        refine Or.inl ⟨?_, key_node, v, set_, ?_, rfl, hex,
                          ?_⟩
                        · simp [ruleBCond, bindingKey, firstSelectedSegment,
                                hk, hap, hat, hki, hv, hvs, hseg, hsi, ht,
                                hex]
                        · simp [bindingKey, hap, hat]
                        · simp [manual_inherit_from.validate,
                                AttrpathValue.cast, Ident.cast, Select.cast,
                                ruleBReport, hk, hap, hat, hki, hv, hvs,
                                hseg, hsi, ht, hex]
                    · refine Or.inr ⟨?_, ?_⟩
                      · simp [ruleBCond, bindingKey, firstSelectedSegment,
                              hap, hat, hv, hseg, hsi, ht]
                      · simp [manual_inherit_from.validate,
                              AttrpathValue.cast, Ident.cast, Select.cast,
                              hk, hap, hat, hki, hv, hvs, hseg, hsi, ht]
                  · refine Or.inr ⟨?_, ?_⟩
                    · simp [ruleBCond, bindingKey, firstSelectedSegment,
                            hap, hat, hv, hseg, hsi]
                    · simp [manual_inherit_from.validate,
                            AttrpathValue.cast, Ident.cast, Select.cast, hk,
                            hap, hat, hki, hv, hvs, hseg, hsi]
              · refine Or.inr ⟨?_, ?_⟩
                · simp [ruleBCond, bindingKey, hap, hat, hv, hvs]
                · simp [manual_inherit_from.validate, AttrpathValue.cast,
                        Ident.cast, Select.cast, hk, hap, hat, hki, hv, hvs]
          · refine Or.inr ⟨?_, ?_⟩
            · simp [ruleBCond, bindingKey, hap, hat, hki]
            · simp [manual_inherit_from.validate, AttrpathValue.cast,
                    Ident.cast, hk, hap, hat, hki]
  · refine Or.inr ⟨?_, ?_⟩
    · simp [ruleBCond, hk]
    · simp [manual_inherit_from.validate, AttrpathValue.cast, hk]

/-- Accessor reduction for the node constructor: kind. -/
theorem SyntaxNode.kind_mk (k : SyntaxKind) (r : TextRange) (t : String)
    (c : List SyntaxNode) : (SyntaxNode.mk k r t c).kind = k := rfl

/-- Accessor reduction for the node constructor: range. -/
theorem SyntaxNode.range_mk (k : SyntaxKind) (r : TextRange) (t : String)
    (c : List SyntaxNode) : (SyntaxNode.mk k r t c).range = r := rfl

/-- Accessor reduction for the node constructor: text. -/
theorem SyntaxNode.text_mk (k : SyntaxKind) (r : TextRange) (t : String)
    (c : List SyntaxNode) : (SyntaxNode.mk k r t c).text = t := rfl

/-- Accessor reduction for the node constructor: children. -/
theorem SyntaxNode.children_mk (k : SyntaxKind) (r : TextRange)
    (t : String) (c : List SyntaxNode) :
    (SyntaxNode.mk k r t c).children = c := rfl

/-- `Expr::cast` fails on attrpath nodes. -/
theorem Expr.can_cast_attrpath :
    Expr.can_cast SyntaxKind.NODE_ATTRPATH = false := rfl

/-- `Expr::cast` succeeds on select nodes. -/
theorem Expr.can_cast_select :
    Expr.can_cast SyntaxKind.NODE_SELECT = true := rfl

/-- `Expr::cast` succeeds on identifier nodes. -/
theorem Expr.can_cast_ident :
    Expr.can_cast SyntaxKind.NODE_IDENT = true := rfl

/-- Rule B ignores everything after the first selected segment: replacing
the tail of the selection path (together with the rendered texts and
ranges that change with it) never changes the result of `validate`. -/
theorem validateB_tail_invariant (sess : SessionInfo)
    (r rs₁ rs₂ rp₁ rp₂ : TextRange) (t₁ t₂ ts₁ ts₂ tp₁ tp₂ : String)
    (kp base seg : SyntaxNode) (tail₁ tail₂ : List SyntaxNode) :
    manual_inherit_from.validate (SyntaxElement.node (mkBinding r t₁ kp
      (mkSelect rs₁ ts₁ base (mkAttrpath rp₁ tp₁ (seg :: tail₁))))) sess =
    manual_inherit_from.validate (SyntaxElement.node (mkBinding r t₂ kp
      (mkSelect rs₂ ts₂ base (mkAttrpath rp₂ tp₂ (seg :: tail₂))))) sess := by
  by_cases hkp : kp.kind = SyntaxKind.NODE_ATTRPATH
  case neg =>
    simp [manual_inherit_from.validate, AttrpathValue.cast,
          AttrpathValue.attrpath, mkBinding, mkSelect, mkAttrpath,
          SyntaxNode.kind_mk, SyntaxNode.children_mk, List.find?, hkp]
  case pos =>
    cases hcs : kp.children with
    | nil =>
      simp [manual_inherit_from.validate, AttrpathValue.cast,
            AttrpathValue.attrpath, Attrpath.attrs, mkBinding, mkSelect,
            mkAttrpath, SyntaxNode.kind_mk, SyntaxNode.children_mk,
            List.find?, hkp, hcs]
    | cons a rest =>
      cases rest with
      | cons b l =>
        simp [manual_inherit_from.validate, AttrpathValue.cast,
              AttrpathValue.attrpath, Attrpath.attrs, mkBinding, mkSelect,
              mkAttrpath, SyntaxNode.kind_mk, SyntaxNode.children_mk,
              List.find?, hkp, hcs]
      | nil =>
        by_cases hai : a.kind = SyntaxKind.NODE_IDENT
        case neg =>
          simp [manual_inherit_from.validate, AttrpathValue.cast,
                AttrpathValue.attrpath, Attrpath.attrs, Ident.cast,
                mkBinding, mkSelect, mkAttrpath, SyntaxNode.kind_mk,
                SyntaxNode.children_mk, List.find?, hkp, hcs, hai]
        case pos =>
          by_cases hb : base.kind = SyntaxKind.NODE_ATTRPATH
          case pos =>
            cases hbc : base.children with
            | nil =>
              simp [manual_inherit_from.validate, AttrpathValue.cast,
                    AttrpathValue.attrpath, AttrpathValue.value,
                    Attrpath.attrs, Ident.cast, Select.cast,
                    Select.attrpath, Select.expr, Expr.can_cast_attrpath,
                    Expr.can_cast_select, mkBinding, mkSelect, mkAttrpath,
                    SyntaxNode.kind_mk, SyntaxNode.children_mk, List.find?,
                    Option.bind, hkp, hcs, hai, hb, hbc]
            | cons s bl =>
              by_cases hsi : s.kind = SyntaxKind.NODE_IDENT
              case neg =>
                simp [manual_inherit_from.validate, AttrpathValue.cast,
                      AttrpathValue.attrpath, AttrpathValue.value,
                      Attrpath.attrs, Ident.cast, Select.cast,
                      Select.attrpath, Select.expr, Expr.can_cast_attrpath,
                      Expr.can_cast_select, mkBinding, mkSelect,
                      mkAttrpath, SyntaxNode.kind_mk,
                      SyntaxNode.children_mk, List.find?, Option.bind, hkp,
                      hcs, hai, hb, hbc, hsi]
              case pos =>
                by_cases hts : a.text = s.text
                case neg =>
                  simp [manual_inherit_from.validate, AttrpathValue.cast,
                        AttrpathValue.attrpath, AttrpathValue.value,
                        Attrpath.attrs, Ident.cast, Select.cast,
                        Select.attrpath, Select.expr,
                        Expr.can_cast_attrpath, Expr.can_cast_select,
                        mkBinding, mkSelect, mkAttrpath, SyntaxNode.kind_mk,
                        SyntaxNode.children_mk, List.find?, Option.bind,
                        hkp, hcs, hai, hb, hbc, hsi, hts]
                case pos =>
                  simp [manual_inherit_from.validate, AttrpathValue.cast,
                        AttrpathValue.attrpath, AttrpathValue.value,
                        Attrpath.attrs, Ident.cast, Select.cast,
                        Select.attrpath, Select.expr,
                        Expr.can_cast_attrpath, Expr.can_cast_select,
                        mkBinding, mkSelect, mkAttrpath, SyntaxNode.kind_mk,
                        SyntaxNode.children_mk, List.find?, Option.bind,
                        hkp, hcs, hai, hb, hbc, hsi, hts]
          case neg =>
            by_cases hsi : seg.kind = SyntaxKind.NODE_IDENT
            case neg =>
              simp [manual_inherit_from.validate, AttrpathValue.cast,
                    AttrpathValue.attrpath, AttrpathValue.value,
                    Attrpath.attrs, Ident.cast, Select.cast,
                    Select.attrpath, Select.expr, Expr.can_cast_attrpath,
                    Expr.can_cast_select, mkBinding, mkSelect, mkAttrpath,
                    SyntaxNode.kind_mk, SyntaxNode.children_mk, List.find?,
                    Option.bind, hkp, hcs, hai, hb, hsi]
            case pos =>
              by_cases hts : a.text = seg.text
              case neg =>
                simp [manual_inherit_from.validate, AttrpathValue.cast,
                      AttrpathValue.attrpath, AttrpathValue.value,
                      Attrpath.attrs, Ident.cast, Select.cast,
                      Select.attrpath, Select.expr, Expr.can_cast_attrpath,
                      Expr.can_cast_select, mkBinding, mkSelect,
                      mkAttrpath, SyntaxNode.kind_mk,
                      SyntaxNode.children_mk, List.find?, Option.bind, hkp,
                      hcs, hai, hb, hsi, hts]
              case pos =>
                by_cases hbe : Expr.can_cast base.kind = true
                case pos =>
                  simp [manual_inherit_from.validate, AttrpathValue.cast,
                        AttrpathValue.attrpath, AttrpathValue.value,
                        Attrpath.attrs, Ident.cast, Select.cast,
                        Select.attrpath, Select.expr,
                        Expr.can_cast_attrpath, Expr.can_cast_select,
                        mkBinding, mkSelect, mkAttrpath, SyntaxNode.kind_mk,
                        SyntaxNode.range_mk, SyntaxNode.children_mk,
                        List.find?, Option.bind, hkp, hcs, hai, hb, hsi,
                        hts, hbe]
                case neg =>
                  simp [manual_inherit_from.validate, AttrpathValue.cast,
                        AttrpathValue.attrpath, AttrpathValue.value,
                        Attrpath.attrs, Ident.cast, Select.cast,
                        Select.attrpath, Select.expr,
                        Expr.can_cast_attrpath, Expr.can_cast_select,
                        mkBinding, mkSelect, mkAttrpath, SyntaxNode.kind_mk,
                        SyntaxNode.children_mk, List.find?, Option.bind,
                        hkp, hcs, hai, hb, hsi, hts, hbe]

/-- Rule A returns `none` whenever the spec condition fails. -/
theorem validateA_of_cond_false {n : SyntaxNode} (sess : SessionInfo)
    (h : ruleACond n = false) :
    manual_inherit.validate (SyntaxElement.node n) sess = none := by
  rcases validateA_cases n sess with ⟨hc, _⟩ | ⟨_, hval⟩
  · rw [h] at hc; simp at hc
  · exact hval

/-- Rule B returns `none` whenever the spec condition fails. -/
theorem validateB_of_cond_false {n : SyntaxNode} (sess : SessionInfo)
    (h : ruleBCond n = false) :
    manual_inherit_from.validate (SyntaxElement.node n) sess = none := by
  rcases validateB_cases n sess with ⟨hc, _⟩ | ⟨_, hval⟩
  · rw [h] at hc; simp at hc
  · exact hval

/-! ### Claims -/

/-- C1: rule A (`manual_inherit`) matches exactly the bindings whose key
path is a single identifier segment, whose value is a bare identifier with
the key's text; on a match the report's suggestion replaces the whole
binding's range with a synthesized `inherit <key>;` statement, and any
binding failing one of the conditions yields `none`.  In particular the
binding `a = a;` matches and the suggestion replaces it with
`inherit a;`. -/
theorem manual_inherit_matches_iff (n : SyntaxNode) (sess : SessionInfo) :
    (ruleACond n = true →
      ∃ key, bindingKey n = some key ∧
        manual_inherit.validate (SyntaxElement.node n) sess =
          some (ruleAReport n.range key) ∧
        (make.inherit_stmt [key]).text = "inherit " ++ key.text ++ ";") ∧
    (ruleACond n = false →
      manual_inherit.validate (SyntaxElement.node n) sess = none) ∧
    manual_inherit.validate (SyntaxElement.node binding_a_a) sess =
      some (Report.mk manual_inherit.note manual_inherit.code
        (TextRange.mk 0 6) inherit_message
        (some (Suggestion.mk (TextRange.mk 0 6)
          (make.inherit_stmt [ident_a_key])))) ∧
    (make.inherit_stmt [ident_a_key]).text = "inherit a;" := by
  refine ⟨?_, ?_, rfl, rfl⟩
  · intro h
    rcases validateA_cases n sess with ⟨_, key, hbk, hval⟩ | ⟨hc, _⟩
    · exact ⟨key, hbk, hval, rfl⟩
    · rw [hc] at h; simp at h
  · intro h
    exact validateA_of_cond_false sess h

/-- Witness for C1 at the concrete bindings `a = a;` (match) and `b = c;`
(no match). -/
theorem manual_inherit_matches_iff_witness :
    (∃ key, bindingKey binding_a_a = some key ∧
      manual_inherit.validate (SyntaxElement.node binding_a_a) sess0 =
        some (ruleAReport binding_a_a.range key) ∧
      (make.inherit_stmt [key]).text = "inherit " ++ key.text ++ ";") ∧
    manual_inherit.validate (SyntaxElement.node binding_b_c) sess0 =
      none :=
  ⟨(manual_inherit_matches_iff binding_a_a sess0).1 rfl,
   (manual_inherit_matches_iff binding_b_c sess0).2.1 rfl⟩

/-- C2: rule B (`manual_inherit_from`) decides a match solely from the
first selected segment: when the spec condition holds (single-identifier
key whose text equals the first selected segment's text, select value,
base present), validate returns the report whose suggestion replaces the
whole binding's range with `inherit (base) key;` built from the select's
base (the sub-expression preceding the first dot); when it fails, validate
returns `none`; and replacing the segments after the first (and the
rendered texts/ranges that change with them) never affects the result. -/
theorem manual_inherit_from_first_segment (n : SyntaxNode)
    (sess : SessionInfo) :
    (ruleBCond n = true →
      ∃ key v set_, bindingKey n = some key ∧
        AttrpathValue.value n = some v ∧ Select.expr v = some set_ ∧
        manual_inherit_from.validate (SyntaxElement.node n) sess =
          some (ruleBReport n.range set_ key) ∧
        (make.inherit_from_stmt set_ [key]).text =
          "inherit (" ++ set_.text ++ ") " ++ key.text ++ ";") ∧
    (ruleBCond n = false →
      manual_inherit_from.validate (SyntaxElement.node n) sess = none) ∧
    (∀ (r rs₁ rs₂ rp₁ rp₂ : TextRange) (t₁ t₂ ts₁ ts₂ tp₁ tp₂ : String)
       (kp base seg : SyntaxNode) (tail₁ tail₂ : List SyntaxNode),
      manual_inherit_from.validate (SyntaxElement.node (mkBinding r t₁ kp
        (mkSelect rs₁ ts₁ base (mkAttrpath rp₁ tp₁ (seg :: tail₁)))))
        sess =
      manual_inherit_from.validate (SyntaxElement.node (mkBinding r t₂ kp
        (mkSelect rs₂ ts₂ base (mkAttrpath rp₂ tp₂ (seg :: tail₂)))))
        sess) := by
  refine ⟨?_, ?_, ?_⟩
  · intro h
    rcases validateB_cases n sess with
      ⟨_, key, v, set_, hbk, hv, hex, hval⟩ | ⟨hc, _⟩
    · exact ⟨key, v, set_, hbk, hv, hex, hval, rfl⟩
    · rw [hc] at h; simp at h
  · intro h
    exact validateB_of_cond_false sess h
  · intro r rs₁ rs₂ rp₁ rp₂ t₁ t₂ ts₁ ts₂ tp₁ tp₂ kp base seg tail₁ tail₂
    exact validateB_tail_invariant sess r rs₁ rs₂ rp₁ rp₂ t₁ t₂ ts₁ ts₂
      tp₁ tp₂ kp base seg tail₁ tail₂

/-- Witness for C2 at the concrete bindings `b = a.b;` (match) and
`mtl = pkgs.haskellPackages.mtl;` (no match). -/
theorem manual_inherit_from_first_segment_witness :
    (∃ key v set_, bindingKey binding_b_ab = some key ∧
      AttrpathValue.value binding_b_ab = some v ∧
      Select.expr v = some set_ ∧
      manual_inherit_from.validate (SyntaxElement.node binding_b_ab)
        sess0 = some (ruleBReport binding_b_ab.range set_ key) ∧
      (make.inherit_from_stmt set_ [key]).text =
        "inherit (" ++ set_.text ++ ") " ++ key.text ++ ";") ∧
    manual_inherit_from.validate (SyntaxElement.node binding_mtl) sess0 =
      none :=
  ⟨(manual_inherit_from_first_segment binding_b_ab sess0).1 rfl,
   (manual_inherit_from_first_segment binding_mtl sess0).2.1 rfl⟩

/-- C3 counterexample: on the binding `pkgs = pkgs.haskellPackages;` rule
B's validate returns `none` — there is no match and no suggestion
`inherit (pkgs.haskellPackages) pkgs;`, because the first selected
segment is `haskellPackages`, not `pkgs`. -/
theorem pkgs_binding_counterexample :
    manual_inherit_from.validate (SyntaxElement.node binding_pkgs) sess0 =
      none := rfl

/-- C3 amended: `pkgs = pkgs.haskellPackages;` is a negative example for
rule B (the key's text `pkgs` differs from the first selected segment's
text `haskellPackages`, so validate returns `none`); an equivalent-shape
canonical positive example is `b = a.b;`, where the key equals the first
selected segment: rule B matches and its suggestion replaces the whole
binding with `inherit (a) b;`. -/
theorem ruleB_canonical_positive (sess : SessionInfo) :
    manual_inherit_from.validate (SyntaxElement.node binding_pkgs) sess =
      none ∧
    firstSelectedSegment select_pkgs_hp = some ident_hp_val ∧
    ident_pkgs_key.text ≠ ident_hp_val.text ∧
    manual_inherit_from.validate (SyntaxElement.node binding_b_ab) sess =
      some (Report.mk manual_inherit_from.note manual_inherit_from.code
        (TextRange.mk 0 8) inherit_message
        (some (Suggestion.mk (TextRange.mk 0 8)
          (make.inherit_from_stmt ident_b_base [ident_b_key])))) ∧
    (make.inherit_from_stmt ident_b_base [ident_b_key]).text =
      "inherit (a) b;" :=
  ⟨rfl, rfl, by decide, rfl, rfl⟩

/-- C4: a key path with more than one segment never matches: whenever a
binding's key path has at least two segments, both rules return `none`
regardless of the value side; in particular both rules return `none` on
`a.b = a.b;`. -/
theorem multi_segment_key_never_matches (n kp a b : SyntaxNode)
    (rest : List SyntaxNode) (sess : SessionInfo) :
    (AttrpathValue.attrpath n = some kp →
      Attrpath.attrs kp = a :: b :: rest →
      manual_inherit.validate (SyntaxElement.node n) sess = none ∧
      manual_inherit_from.validate (SyntaxElement.node n) sess = none) ∧
    manual_inherit.validate (SyntaxElement.node binding_ab_ab) sess =
      none ∧
    manual_inherit_from.validate (SyntaxElement.node binding_ab_ab) sess =
      none := by
  refine ⟨?_, rfl, rfl⟩
  intro hap hat
  have hbk : bindingKey n = none := by simp [bindingKey, hap, hat]
  have hra : ruleACond n = false := by simp [ruleACond, hbk]
  have hrb : ruleBCond n = false := by simp [ruleBCond, hbk]
  exact ⟨validateA_of_cond_false sess hra, validateB_of_cond_false sess hrb⟩

/-- Witness for C4 at the concrete binding `a.b = a.b;`. -/
theorem multi_segment_key_never_matches_witness :
    manual_inherit.validate (SyntaxElement.node binding_ab_ab) sess0 =
      none ∧
    manual_inherit_from.validate (SyntaxElement.node binding_ab_ab) sess0 =
      none :=
  (multi_segment_key_never_matches binding_ab_ab attrpath_ab ident_ab_a
    ident_ab_b [] sess0).1 rfl rfl

/-- C5: on the binding `mtl = pkgs.haskellPackages.mtl;` rule B returns
`none`: the key's text `mtl` differs from the first selected segment's
text `haskellPackages`. -/
theorem mtl_binding_no_match (sess : SessionInfo) :
    manual_inherit_from.validate (SyntaxElement.node binding_mtl) sess =
      none ∧
    bindingKey binding_mtl = some ident_mtl_key ∧
    firstSelectedSegment select_pkgs_hp_mtl = some ident_hp_seg ∧
    ident_mtl_key.text ≠ ident_hp_seg.text :=
  ⟨rfl, rfl, rfl, by decide⟩

/-- C6: every failure anywhere in either rule's matching chain yields
`none` with no partial result: a successful result always carries its
constructed suggestion; a missing key path or missing value degenerates to
`none` for both rules; and a select value without a base expression
degenerates to `none` for rule B — a rule never produces a report
promising a suggestion it cannot construct. -/
theorem validate_failure_is_none (e : SyntaxElement) (sess : SessionInfo) :
    (manual_inherit.validate e sess = none ∨
      ∃ r, manual_inherit.validate e sess = some r ∧
        r.suggestion.isSome = true) ∧
    (manual_inherit_from.validate e sess = none ∨
      ∃ r, manual_inherit_from.validate e sess = some r ∧
        r.suggestion.isSome = true) ∧
    (∀ n, e = SyntaxElement.node n →
      (AttrpathValue.attrpath n = none →
        manual_inherit.validate e sess = none ∧
        manual_inherit_from.validate e sess = none) ∧
      (AttrpathValue.value n = none →
        manual_inherit.validate e sess = none ∧
        manual_inherit_from.validate e sess = none) ∧
      (∀ v, AttrpathValue.value n = some v → Select.expr v = none →
        manual_inherit_from.validate e sess = none)) := by
  refine ⟨?_, ?_, ?_⟩
  · cases e with
    | token t => exact Or.inl rfl
    | node n =>
      rcases validateA_cases n sess with ⟨_, key, _, hval⟩ | ⟨_, hval⟩
      · exact Or.inr ⟨_, hval, rfl⟩
      · exact Or.inl hval
  · cases e with
    | token t => exact Or.inl rfl
    | node n =>
      rcases validateB_cases n sess with
        ⟨_, key, v, set_, _, _, _, hval⟩ | ⟨_, hval⟩
      · exact Or.inr ⟨_, hval, rfl⟩
      · exact Or.inl hval
  · rintro n rfl
    refine ⟨?_, ?_, ?_⟩
    · intro hap
      have hbk : bindingKey n = none := by simp [bindingKey, hap]
      have hra : ruleACond n = false := by simp [ruleACond, hbk]
      have hrb : ruleBCond n = false := by simp [ruleBCond, hbk]
      exact ⟨validateA_of_cond_false sess hra,
             validateB_of_cond_false sess hrb⟩
    · intro hv
      have hra : ruleACond n = false := by
        cases hbk : bindingKey n with
        | none => simp [ruleACond, hbk]
        | some key => simp [ruleACond, hbk, hv]
      have hrb : ruleBCond n = false := by
        cases hbk : bindingKey n with
        | none => simp [ruleBCond, hbk]
        | some key => simp [ruleBCond, hbk, hv]
      exact ⟨validateA_of_cond_false sess hra,
             validateB_of_cond_false sess hrb⟩
    · intro v hv hex
      have hrb : ruleBCond n = false := by
        cases hbk : bindingKey n with
        | none => simp [ruleBCond, hbk]
        | some key => simp [ruleBCond, hbk, hv, hex]
      exact validateB_of_cond_false sess hrb

/-- Witness for C6 at the malformed bindings `x = .x;` (select without a
base, where rule B's trigger condition otherwise holds) and `x =;`
(missing value). -/
theorem validate_failure_is_none_witness :
    manual_inherit_from.validate (SyntaxElement.node binding_noBase)
      sess0 = none ∧
    manual_inherit.validate (SyntaxElement.node binding_noValue) sess0 =
      none :=
  ⟨((validate_failure_is_none (SyntaxElement.node binding_noBase)
      sess0).2.2 binding_noBase rfl).2.2 select_noBase rfl rfl,
   (((validate_failure_is_none (SyntaxElement.node binding_noValue)
      sess0).2.2 binding_noValue rfl).2.1 rfl).1⟩

/-- C7: each rule's validate is a deterministic pure function of the node
and session: repeated invocations on the same pair agree, and the result
does not depend on the session at all (both rules ignore it). -/
theorem validate_deterministic_pure (e : SyntaxElement)
    (s₁ s₂ : SessionInfo) :
    manual_inherit.validate e s₁ = manual_inherit.validate e s₁ ∧
    manual_inherit_from.validate e s₁ =
      manual_inherit_from.validate e s₁ ∧
    manual_inherit.validate e s₁ = manual_inherit.validate e s₂ ∧
    manual_inherit_from.validate e s₁ =
      manual_inherit_from.validate e s₂ :=
  ⟨rfl, rfl, rfl, rfl⟩

/-- C8: fixes are idempotent: whenever one of the rules matched a binding
and produced a suggestion, re-running the same rule's validate on the
synthesized replacement subtree returns `none` — the fix eliminates its
own trigger. -/
theorem fix_is_idempotent (n : SyntaxNode) (sess : SessionInfo)
    (r : Report) :
    (manual_inherit.validate (SyntaxElement.node n) sess = some r →
      ∀ s, r.suggestion = some s →
        manual_inherit.validate (SyntaxElement.node s.fix) sess = none) ∧
    (manual_inherit_from.validate (SyntaxElement.node n) sess = some r →
      ∀ s, r.suggestion = some s →
        manual_inherit_from.validate (SyntaxElement.node s.fix) sess =
          none) := by
  constructor
  · intro hval s hs
    rcases validateA_cases n sess with ⟨_, key, _, hval'⟩ | ⟨_, hval'⟩
    · rw [hval] at hval'
      have hr : r = ruleAReport n.range key := by injection hval'
      subst hr
      simp only [ruleAReport, ReportBuilder.suggest,
                 Option.some.injEq] at hs
      subst hs
      exact validateA_not_apv _ sess
        (by simp [Suggestion.new, make.inherit_stmt, SyntaxNode.kind])
    · rw [hval'] at hval
      exact Option.noConfusion hval
  · intro hval s hs
    rcases validateB_cases n sess with
      ⟨_, key, v, set_, _, _, _, hval'⟩ | ⟨_, hval'⟩
    · rw [hval] at hval'
      have hr : r = ruleBReport n.range set_ key := by injection hval'
      subst hr
      simp only [ruleBReport, ReportBuilder.suggest,
                 Option.some.injEq] at hs
      subst hs
      exact validateB_not_apv _ sess
        (by simp [Suggestion.new, make.inherit_from_stmt, SyntaxNode.kind])
    · rw [hval'] at hval
      exact Option.noConfusion hval

/-- Witness for C8: re-running each rule on its own synthesized fix for
the concrete matches `a = a;` and `b = a.b;` yields no match. -/
theorem fix_is_idempotent_witness :
    manual_inherit.validate
      (SyntaxElement.node (make.inherit_stmt [ident_a_key])) sess0 =
      none ∧
    manual_inherit_from.validate
      (SyntaxElement.node (make.inherit_from_stmt ident_b_base
        [ident_b_key])) sess0 = none :=
  ⟨(fix_is_idempotent binding_a_a sess0
      (ruleAReport (TextRange.mk 0 6) ident_a_key)).1 rfl
      (Suggestion.new (TextRange.mk 0 6) (make.inherit_stmt [ident_a_key]))
      rfl,
   (fix_is_idempotent binding_b_ab sess0
      (ruleBReport (TextRange.mk 0 8) ident_b_base ident_b_key)).2 rfl
      (Suggestion.new (TextRange.mk 0 8)
        (make.inherit_from_stmt ident_b_base [ident_b_key])) rfl⟩

/-- C9: every emitted report's diagnostic range and its suggestion's
replacement range are both exactly the text range of the matched
element. -/
theorem report_ranges_match_node (e : SyntaxElement) (sess : SessionInfo)
    (r : Report) :
    (manual_inherit.validate e sess = some r →
      r.at_ = e.text_range ∧
      ∀ s, r.suggestion = some s → s.at_ = e.text_range) ∧
    (manual_inherit_from.validate e sess = some r →
      r.at_ = e.text_range ∧
      ∀ s, r.suggestion = some s → s.at_ = e.text_range) := by
  constructor
  · intro hval
    cases e with
    | token t =>
      rw [validateA_token t sess] at hval
      exact Option.noConfusion hval
    | node n =>
      rcases validateA_cases n sess with ⟨_, key, _, hval'⟩ | ⟨_, hval'⟩
      · rw [hval] at hval'
        have hr : r = ruleAReport n.range key := by injection hval'
        subst hr
        refine ⟨rfl, ?_⟩
        intro s hs
        simp only [ruleAReport, ReportBuilder.suggest,
                   Option.some.injEq] at hs
        subst hs
        rfl
      · rw [hval'] at hval
        exact Option.noConfusion hval
  · intro hval
    cases e with
    | token t =>
      rw [validateB_token t sess] at hval
      exact Option.noConfusion hval
    | node n =>
      rcases validateB_cases n sess with
        ⟨_, key, v, set_, _, _, _, hval'⟩ | ⟨_, hval'⟩
      · rw [hval] at hval'
        have hr : r = ruleBReport n.range set_ key := by injection hval'
        subst hr
        refine ⟨rfl, ?_⟩
        intro s hs
        simp only [ruleBReport, ReportBuilder.suggest,
                   Option.some.injEq] at hs
        subst hs
        rfl
      · rw [hval'] at hval
        exact Option.noConfusion hval

/-- Witness for C9 at the concrete matches `a = a;` (rule A) and
`b = a.b;` (rule B). -/
theorem report_ranges_match_node_witness :
    ((ruleAReport (TextRange.mk 0 6) ident_a_key).at_ =
        (SyntaxElement.node binding_a_a).text_range ∧
      ∀ s, (ruleAReport (TextRange.mk 0 6) ident_a_key).suggestion =
          some s →
        s.at_ = (SyntaxElement.node binding_a_a).text_range) ∧
    ((ruleBReport (TextRange.mk 0 8) ident_b_base ident_b_key).at_ =
        (SyntaxElement.node binding_b_ab).text_range ∧
      ∀ s, (ruleBReport (TextRange.mk 0 8) ident_b_base
            ident_b_key).suggestion = some s →
        s.at_ = (SyntaxElement.node binding_b_ab).text_range) :=
  ⟨(report_ranges_match_node (SyntaxElement.node binding_a_a) sess0
      (ruleAReport (TextRange.mk 0 6) ident_a_key)).1 rfl,
   (report_ranges_match_node (SyntaxElement.node binding_b_ab) sess0
      (ruleBReport (TextRange.mk 0 8) ident_b_base ident_b_key)).2 rfl⟩

/-- C10: both validates are total over every syntax element: on a leaf
token, and on any node whose kind is not attrpath-value, they return
`none` rather than faulting. -/
theorem validate_total_on_elements (t : SyntaxToken) (n : SyntaxNode)
    (sess : SessionInfo) :
    manual_inherit.validate (SyntaxElement.token t) sess = none ∧
    manual_inherit_from.validate (SyntaxElement.token t) sess = none ∧
    (n.kind ≠ SyntaxKind.NODE_ATTRPATH_VALUE →
      manual_inherit.validate (SyntaxElement.node n) sess = none ∧
      manual_inherit_from.validate (SyntaxElement.node n) sess = none) :=
  ⟨rfl, rfl, fun h =>
    ⟨validateA_not_apv n sess h, validateB_not_apv n sess h⟩⟩

/-- Witness for C10 at a concrete `=` token and a bare identifier node. -/
theorem validate_total_on_elements_witness :
    manual_inherit.validate (SyntaxElement.token token_eq) sess0 = none ∧
    manual_inherit.validate (SyntaxElement.node ident_a_key) sess0 =
      none ∧
    manual_inherit_from.validate (SyntaxElement.node ident_a_key) sess0 =
      none :=
  ⟨(validate_total_on_elements token_eq ident_a_key sess0).1,
   (validate_total_on_elements token_eq ident_a_key sess0).2.2
     (by decide)⟩
